import Mathlib

/-!
# Verification of the sandbox-fleet supervisor (`src/main.py`)

This file gives a shallow embedding, in Lean 4, of the Python program
`src/main.py`: a launcher that collects API keys from the environment and
the command line, and runs one lifecycle supervisor per key.  Each
supervisor repeatedly connects (with a bounded retry budget), runs a
command, classifies the outcome by substring matching on the error text,
and sleeps a policy-chosen cooldown before the next cycle.

External effects are modelled explicitly:

* the remote sandbox service is an oracle (`ConnResult` per connection
  attempt, `RunResult` per cycle);
* `random.randint(lo, hi)` is modelled by `randint lo hi x`, where `x` is
  a raw entropy value drawn from an entropy stream `rnd : Nat → Nat`
  consumed in order — `randint` always lands in `[lo, hi]` when
  `lo ≤ hi`, exactly the guarantee Python's `randint` gives;
* each `await asyncio.sleep(d)` and each observable step is recorded as
  an `Event` in a trace;
* the unbounded `while True:` loop is run for `fuel` iterations.
-/

namespace EB

/-! ## Error-text classification (src/main.py lines 85-86, 123-132)

Python lowercases the stringified exception (`str(e).lower()`) and tests
substring membership with `in`.  `lowerData` is `.lower()` on the
character list (ASCII case mapping, which covers every phrase the program
tests) and `containsSeq` is Python's `in` on sequences. -/

/-- Is `pat` a prefix of `l`? (`==` on characters). -/
def isPrefixSeq : List Char → List Char → Bool
  | [], _ => true
  | _ :: _, [] => false
  | c :: cs, d :: ds => c == d && isPrefixSeq cs ds

/-- Does `pat` occur as a contiguous subsequence of `l`?  This is
Python's `pat in l` on strings. -/
def containsSeq (pat : List Char) : List Char → Bool
  | [] => isPrefixSeq pat []
  | c :: cs => isPrefixSeq pat (c :: cs) || containsSeq pat cs

/-- `str(e).lower()` — the lowercased character data of the error text. -/
def lowerData (s : String) : List Char :=
  s.data.map Char.toLower

/-- `phrase in str(e).lower()` for an (already lowercase) phrase. -/
def containsPhrase (s : String) (phrase : String) : Bool :=
  containsSeq phrase.data (lowerData s)

/-- `"team blocked" in error_text or "suspended" in error_text`
(lines 86 and 132): the error marks the key as permanently invalid. -/
def isTerminalError (s : String) : Bool :=
  containsPhrase s "team blocked" || containsPhrase s "suspended"

/-- `"the sandbox was not found" in error_text` (line 125): the remote
session expired out from under the run. -/
def isSandboxNotFound (s : String) : Bool :=
  containsPhrase s "the sandbox was not found"

/-- The classification of a run-phase exception, following the
`if / elif / else` chain of lines 125-141: the sandbox-not-found test
runs first, then the terminal-phrase test, and everything else is an
unexpected error. -/
inductive RunErrClass where
  | expired
  | terminal
  | unexpected
deriving DecidableEq, Repr

/-- Lines 125-141: classify a run-phase exception's text. -/
def classifyRunError (s : String) : RunErrClass :=
  if isSandboxNotFound s then .expired
  else if isTerminalError s then .terminal
  else .unexpected

/-! ## Constants and `random.randint` -/

def ENV_PREFIX : String := "E2B_KEY_"

def MAX_CONNECTION_ATTEMPTS : Nat := 10

/-- `random.randint(lo, hi)` applied to one raw entropy value `x`:
a value in `[lo, hi]` whenever `lo ≤ hi` (Python draws uniformly from
that inclusive range; which member is drawn depends on the entropy). -/
def randint (lo hi : Int) (x : Nat) : Int :=
  lo + (x : Int) % (hi + 1 - lo)

theorem randint_mem (lo hi : Int) (x : Nat) (h : lo ≤ hi) :
    lo ≤ randint lo hi x ∧ randint lo hi x ≤ hi := by
  have hpos : 0 < hi + 1 - lo := by omega
  have h0 : 0 ≤ (x : Int) % (hi + 1 - lo) :=
    Int.emod_nonneg _ (by omega)
  have h1 : (x : Int) % (hi + 1 - lo) < hi + 1 - lo :=
    Int.emod_lt_of_pos _ hpos
  unfold randint
  omega

/-! ## Credential source (lines 55-57 and 156-161) -/

/-- Line 55-57: all environment values whose name starts with `pre`
(`k.startswith(prefix)`) and whose value is non-blank (`v.strip()` is
truthy, i.e. the value has at least one non-whitespace character).  The
environment is the enumeration-ordered list of `(name, value)` pairs. -/
def env_keys (pre : String) (environ : List (String × String)) : List String :=
  (environ.filter (fun kv => isPrefixSeq pre.data kv.1.data &&
    kv.2.data.any (fun c => !c.isWhitespace))).map (fun kv => kv.2)

/-- Lines 156-161: the de-duplication loop over
`env_keys() + (args.key or [])` — `seen` is the membership set, and a
key is appended exactly when it has not been seen before. -/
def dedupLoop (seen : List String) : List String → List String
  | [] => []
  | k :: ks =>
    if seen.contains k then dedupLoop seen ks
    else k :: dedupLoop (k :: seen) ks

/-- The merged credential list of `main_async`: environment keys first,
then explicit `--key` values, first occurrence of each string kept. -/
def collectKeys (environ : List (String × String)) (flagKeys : List String) :
    List String :=
  dedupLoop [] (env_keys ENV_PREFIX environ ++ flagKeys)

/-- Modelled from the spec: "duplicates … are removed, keeping first
occurrence" — keep each element and delete its later duplicates. -/
def keepFirst : List String → List String
  | [] => []
  | x :: xs => x :: keepFirst (xs.filter (fun y => y ≠ x))
termination_by l => l.length
decreasing_by
  simp only [List.length_cons]
  exact Nat.lt_succ_of_le (List.length_filter_le _ _)

/-! ## The lifecycle supervisor (`run_sandbox_lifecycle`, lines 68-145)

The remote service is an oracle: `connO a` is what
`AsyncSandbox.create` does on connection attempt `a` of the current
cycle, and `runO` is what the run phase (`commands.run` … `proc.wait`)
does once connected.  A run that raises no exception carries its exit
code (printed, lines 112-120, not branched on); a raising run carries
the exception text. -/

/-- Outcome of one `AsyncSandbox.create` call. -/
inductive ConnResult where
  | ok
  | err (msg : String)

/-- Outcome of one run phase (`async with` block, lines 104-120). -/
inductive RunResult where
  | clean (exitCode : Int)
  | raised (msg : String)

/-- Observable steps of a supervisor, in order: connection attempts
(the `AsyncSandbox.create` call of line 81), the launch of the command
(line 106), and every `asyncio.sleep` with its duration. -/
inductive Event where
  | connAttempt (attempt : Nat)
  | runStart
  | sleepFailedAttempt (d : Int)
  | sleepExpired (d : Int)
  | sleepError (d : Int)
  | sleepNormal (d : Int)
deriving DecidableEq, Repr

/-- Result of the connection retry loop (lines 78-100): either a session
was obtained (`break` on line 83) or the function returned. -/
inductive ConnOutcome where
  | connected
  | abandoned
deriving DecidableEq, Repr

/-- How one iteration of the `while True:` loop ends: `return`/`break`
(the supervisor is done with this key) or fall through to the next
iteration. -/
inductive CycleEnd where
  | abandonKey
  | nextCycle
deriving DecidableEq, Repr

/-- Whether the supervisor has exited by the time the fuel runs out. -/
inductive LifeOutcome where
  | abandoned
  | running
deriving DecidableEq, Repr

/-- Lines 78-97, `for attempt in range(MAX_CONNECTION_ATTEMPTS)`:
`remaining` is the number of loop iterations left
(`MAX_CONNECTION_ATTEMPTS - attempt`), `rc` indexes the entropy stream.
Returns the emitted events, the loop's outcome, and the next entropy
index.  On a terminal error the key is abandoned at once (line 88); on
another error the loop sleeps `randint 60 250` if `attempt <
MAX_CONNECTION_ATTEMPTS - 1` and otherwise abandons (lines 91-97). -/
def connectLoopAux (connO : Nat → ConnResult) (rnd : Nat → Nat) :
    Nat → Nat → Nat → List Event × ConnOutcome × Nat
  | 0, _, rc => ([], .abandoned, rc)
  | remaining + 1, attempt, rc =>
    match connO attempt with
    | .ok => ([.connAttempt attempt], .connected, rc)
    | .err m =>
      if isTerminalError m then ([.connAttempt attempt], .abandoned, rc)
      else if attempt < MAX_CONNECTION_ATTEMPTS - 1 then
        let d := randint 60 250 (rnd rc)
        let rest := connectLoopAux connO rnd remaining (attempt + 1) (rc + 1)
        (.connAttempt attempt :: .sleepFailedAttempt d :: rest.1,
          rest.2.1, rest.2.2)
      else ([.connAttempt attempt], .abandoned, rc)

/-- The full connection retry loop, started at attempt 0 with the whole
budget of `MAX_CONNECTION_ATTEMPTS` iterations. -/
def connectLoop (connO : Nat → ConnResult) (rnd : Nat → Nat) (rc : Nat) :
    List Event × ConnOutcome × Nat :=
  connectLoopAux connO rnd MAX_CONNECTION_ATTEMPTS 0 rc

/-- Lines 122-141: the `except` handler of the run phase, for exception
text `m`.  Checked in source order: sandbox-not-found sleeps
`randint 360 900` and continues (lines 125-130); a terminal phrase
breaks out of the `while` loop (lines 132-134); anything else sleeps
`randint 300 600` and continues (lines 136-141). -/
def handleRunError (m : String) (rnd : Nat → Nat) (rc : Nat) :
    List Event × CycleEnd × Nat :=
  match classifyRunError m with
  | .expired => ([.sleepExpired (randint 360 900 (rnd rc))], .nextCycle, rc + 1)
  | .terminal => ([], .abandonKey, rc)
  | .unexpected => ([.sleepError (randint 300 600 (rnd rc))], .nextCycle, rc + 1)

/-- One iteration of the `while True:` loop (lines 75-145): the
connection retry loop, then — if a session was obtained — the run
phase.  A clean run (no exception) falls through to the normal cooldown
`randint downtime_min downtime_max` of lines 143-145; a raising run is
classified by `handleRunError`, and only its `nextCycle` outcomes reach
another iteration. -/
def cycleStep (downtimeMin downtimeMax : Int) (connO : Nat → ConnResult)
    (runO : RunResult) (rnd : Nat → Nat) (rc : Nat) :
    List Event × CycleEnd × Nat :=
  let conn := connectLoop connO rnd rc
  match conn.2.1 with
  | .abandoned => (conn.1, .abandonKey, conn.2.2)
  | .connected =>
    match runO with
    | .clean _ =>
      let d := randint downtimeMin downtimeMax (rnd conn.2.2)
      (conn.1 ++ [.runStart, .sleepNormal d], .nextCycle, conn.2.2 + 1)
    | .raised m =>
      let handled := handleRunError m rnd conn.2.2
      (conn.1 ++ .runStart :: handled.1, handled.2.1, handled.2.2)

/-- `run_sandbox_lifecycle`, its `while True:` loop run for `fuel`
iterations: `cycle` counts iterations so the oracles can vary per
cycle, `rc` indexes the entropy stream.  Returns the whole event trace
and whether the supervisor has exited (`abandoned`) or would still be
looping when the fuel runs out. -/
def lifecycle (downtimeMin downtimeMax : Int) (connO : Nat → Nat → ConnResult)
    (runO : Nat → RunResult) (rnd : Nat → Nat) :
    Nat → Nat → Nat → List Event × LifeOutcome
  | 0, _, _ => ([], .running)
  | fuel + 1, cycle, rc =>
    let step := cycleStep downtimeMin downtimeMax (connO cycle) (runO cycle) rnd rc
    match step.2.1 with
    | .abandonKey => (step.1, .abandoned)
    | .nextCycle =>
      let rest := lifecycle downtimeMin downtimeMax connO runO rnd fuel
        (cycle + 1) step.2.2
      (step.1 ++ rest.1, rest.2)

/-! ## Launch coordinator and `main_async` (lines 149-183) -/

/-- Steps taken by `main_async` after validation: creating one
supervisor task per key (line 172) and the grace-period sleep between
successive launches (lines 178-181). -/
inductive LaunchEvent where
  | startTask (key : String)
  | graceSleep (d : Int)
deriving DecidableEq, Repr

/-- Lines 168-181: create one task per key, in order, and between
successive launches (`i < len(keys) - 1`) sleep `randint 30 45`. -/
def launchSeq (rnd : Nat → Nat) (rc : Nat) : List String → List LaunchEvent
  | [] => []
  | [k] => [.startTask k]
  | k :: k' :: ks =>
    .startTask k :: .graceSleep (randint 30 45 (rnd rc)) ::
      launchSeq rnd (rc + 1) (k' :: ks)

/-- How `main_async` ends, seen from the outside: `sys.exit(msg)` with
its process exit code (a string argument exits with status 1), or the
launch of the supervisor tasks. -/
inductive MainResult where
  | exited (code : Nat) (msg : String)
  | launched (tasks : List LaunchEvent)
deriving DecidableEq, Repr

/-- `main_async` (lines 149-183) up to the point where the supervisor
tasks exist: validate the cooldown bounds (lines 153-154), collect and
de-duplicate the keys (lines 156-161), fail if none were found
(lines 163-164), otherwise launch one task per key with grace periods
in between. -/
def main_async (downtimeMin downtimeMax : Int)
    (environ : List (String × String)) (flagKeys : List String)
    (rnd : Nat → Nat) : MainResult :=
  if downtimeMin > downtimeMax then
    .exited 1 "Error: --downtime-min cannot be greater than --downtime-max"
  else
    let keys := collectKeys environ flagKeys
    if keys.isEmpty then
      .exited 1 ("No API keys found – set " ++ ENV_PREFIX ++ "* or pass --key")
    else
      .launched (launchSeq rnd 0 keys)

/-! ## Trace observables -/

/-- Is the event a connection attempt (an `AsyncSandbox.create` call)? -/
def isConnAttemptEv : Event → Bool
  | .connAttempt _ => true
  | _ => false

/-- Is the event the launch of the command (entering the run phase)? -/
def isRunStartEv : Event → Bool
  | .runStart => true
  | _ => false

/-- Is the event a failed-connection-attempt cooldown sleep? -/
def isFailSleepEv : Event → Bool
  | .sleepFailedAttempt _ => true
  | _ => false

/-- Is the event a session-expired cooldown sleep? -/
def isExpSleepEv : Event → Bool
  | .sleepExpired _ => true
  | _ => false

/-- Is the event an unexpected-run-error cooldown sleep? -/
def isErrSleepEv : Event → Bool
  | .sleepError _ => true
  | _ => false

/-- Is the event a normal post-run cooldown sleep? -/
def isNormSleepEv : Event → Bool
  | .sleepNormal _ => true
  | _ => false

/-- Is the launch-coordinator event a task creation? -/
def isStartTaskEv : LaunchEvent → Bool
  | .startTask _ => true
  | _ => false

/-- Is the launch-coordinator event a grace-period sleep? -/
def isGraceSleepEv : LaunchEvent → Bool
  | .graceSleep _ => true
  | _ => false

/-! ## Lemmas about the connection retry loop -/

theorem connectLoopAux_allfail (connO : Nat → ConnResult) (rnd : Nat → Nat)
    (errs : Nat → String)
    (hfail : ∀ a, connO a = .err (errs a))
    (hnt : ∀ a, isTerminalError (errs a) = false)
    (remaining attempt rc : Nat)
    (hinv : attempt + remaining = MAX_CONNECTION_ATTEMPTS)
    (hpos : 1 ≤ remaining) :
    (connectLoopAux connO rnd remaining attempt rc).2.1 = .abandoned ∧
    ((connectLoopAux connO rnd remaining attempt rc).1.countP isConnAttemptEv)
      = remaining ∧
    ((connectLoopAux connO rnd remaining attempt rc).1.countP isFailSleepEv)
      = remaining - 1 ∧
    ((connectLoopAux connO rnd remaining attempt rc).1.countP isRunStartEv)
      = 0 ∧
    (connectLoopAux connO rnd remaining attempt rc).1.getLast? =
      some (.connAttempt (MAX_CONNECTION_ATTEMPTS - 1)) := by
  have hm : MAX_CONNECTION_ATTEMPTS = 10 := rfl
  induction remaining generalizing attempt rc with
  | zero => omega
  | succ n ih =>
    rw [show connectLoopAux connO rnd (n + 1) attempt rc =
      (match connO attempt with
      | .ok => ([.connAttempt attempt], .connected, rc)
      | .err m =>
        if isTerminalError m then ([.connAttempt attempt], .abandoned, rc)
        else if attempt < MAX_CONNECTION_ATTEMPTS - 1 then
          let d := randint 60 250 (rnd rc)
          let rest := connectLoopAux connO rnd n (attempt + 1) (rc + 1)
          (.connAttempt attempt :: .sleepFailedAttempt d :: rest.1,
            rest.2.1, rest.2.2)
        else ([.connAttempt attempt], .abandoned, rc)) from rfl]
    rw [hfail attempt]
    simp only [hnt attempt, Bool.false_eq_true, if_false]
    by_cases hlt : attempt < MAX_CONNECTION_ATTEMPTS - 1
    · rw [if_pos hlt]
      have hn : 1 ≤ n := by omega
      obtain ⟨h1, h2, h3, h4, h5⟩ := ih (attempt + 1) (rc + 1) (by omega) hn
      have hne : (connectLoopAux connO rnd n (attempt + 1) (rc + 1)).1 ≠ [] := by
        intro hemp
        rw [hemp] at h5
        simp at h5
      refine ⟨h1, ?_, ?_, ?_, ?_⟩
      · simp [List.countP_cons, isConnAttemptEv, isFailSleepEv, h2]
      · simp only [List.countP_cons, isConnAttemptEv, isFailSleepEv]
        simp [h3]
        omega
      · simp [List.countP_cons, isRunStartEv, h4]
      · rw [show (Event.connAttempt attempt :: .sleepFailedAttempt
            (randint 60 250 (rnd rc)) ::
            (connectLoopAux connO rnd n (attempt + 1) (rc + 1)).1) =
          [Event.connAttempt attempt, .sleepFailedAttempt
            (randint 60 250 (rnd rc))] ++
            (connectLoopAux connO rnd n (attempt + 1) (rc + 1)).1 from rfl]
        rw [List.getLast?_append_of_ne_nil _ hne]
        exact h5
    · rw [if_neg hlt]
      have hattempt : attempt = MAX_CONNECTION_ATTEMPTS - 1 := by omega
      subst hattempt
      have hone : n = 0 := by omega
      subst hone
      refine ⟨rfl, ?_, ?_, ?_, rfl⟩
      · simp [List.countP_cons, isConnAttemptEv]
      · simp [List.countP_cons, isFailSleepEv]
      · simp [List.countP_cons, isRunStartEv]

/-- C1, claim statement tried on a concrete run: all ten attempts fail
non-terminally, the supervisor abandons. -/
theorem lifecycle_allfail (dmin dmax : Int) (connO : Nat → Nat → ConnResult)
    (runO : Nat → RunResult) (rnd : Nat → Nat) (fuel rc : Nat)
    (errs : Nat → String)
    (hfail : ∀ a, connO 0 a = .err (errs a))
    (hnt : ∀ a, isTerminalError (errs a) = false) :
    lifecycle dmin dmax connO runO rnd (fuel + 1) 0 rc =
      ((connectLoop (connO 0) rnd rc).1, .abandoned) := by
  have h := connectLoopAux_allfail (connO 0) rnd errs hfail hnt
    MAX_CONNECTION_ATTEMPTS 0 rc rfl (by unfold MAX_CONNECTION_ATTEMPTS; omega)
  show (let step := cycleStep dmin dmax (connO 0) (runO 0) rnd rc
    match step.2.1 with
    | CycleEnd.abandonKey => (step.1, LifeOutcome.abandoned)
    | CycleEnd.nextCycle =>
      let rest := lifecycle dmin dmax connO runO rnd fuel 1 step.2.2
      (step.1 ++ rest.1, rest.2)) =
    ((connectLoop (connO 0) rnd rc).1, LifeOutcome.abandoned)
  unfold cycleStep connectLoop
  rcases hc : connectLoopAux (connO 0) rnd MAX_CONNECTION_ATTEMPTS 0 rc
    with ⟨evs, o, rc2⟩
  rw [hc] at h
  have h1 : o = ConnOutcome.abandoned := h.1
  subst h1
  rfl

/-- If the connection retry loop gives up, the whole supervisor returns:
the cycle's trace is the loop's trace and the outcome is `abandoned`. -/
theorem lifecycle_conn_abandoned (dmin dmax : Int)
    (connO : Nat → Nat → ConnResult) (runO : Nat → RunResult)
    (rnd : Nat → Nat) (fuel cycle rc : Nat)
    (h : (connectLoop (connO cycle) rnd rc).2.1 = .abandoned) :
    lifecycle dmin dmax connO runO rnd (fuel + 1) cycle rc =
      ((connectLoop (connO cycle) rnd rc).1, .abandoned) := by
  show (let step := cycleStep dmin dmax (connO cycle) (runO cycle) rnd rc
    match step.2.1 with
    | CycleEnd.abandonKey => (step.1, LifeOutcome.abandoned)
    | CycleEnd.nextCycle =>
      let rest := lifecycle dmin dmax connO runO rnd fuel (cycle + 1) step.2.2
      (step.1 ++ rest.1, rest.2)) =
    ((connectLoop (connO cycle) rnd rc).1, LifeOutcome.abandoned)
  unfold cycleStep connectLoop
  unfold connectLoop at h
  rcases hc : connectLoopAux (connO cycle) rnd MAX_CONNECTION_ATTEMPTS 0 rc
    with ⟨evs, o, rc2⟩
  rw [hc] at h
  have h1 : o = ConnOutcome.abandoned := h
  subst h1
  rfl

/-- If the connection phase of the cycle succeeds and the run phase
raises an error whose text holds a terminal phrase but not the
sandbox-expiry phrase, the supervisor breaks out of the `while` loop at
once: no cooldown sleep and no further cycle. -/
theorem handleRunError_terminal (m : String) (rnd : Nat → Nat) (rc : Nat)
    (hsnf : isSandboxNotFound m = false)
    (hterm : isTerminalError m = true) :
    handleRunError m rnd rc = ([], .abandonKey, rc) := by
  have hclass : classifyRunError m = .terminal := by
    unfold classifyRunError
    rw [hsnf, hterm]
    rfl
  unfold handleRunError
  rw [hclass]

theorem lifecycle_run_terminal (dmin dmax : Int)
    (connO : Nat → Nat → ConnResult) (runO : Nat → RunResult)
    (rnd : Nat → Nat) (fuel cycle rc : Nat) (m : String)
    (hconn : (connectLoop (connO cycle) rnd rc).2.1 = .connected)
    (hrun : runO cycle = .raised m)
    (hsnf : isSandboxNotFound m = false)
    (hterm : isTerminalError m = true) :
    lifecycle dmin dmax connO runO rnd (fuel + 1) cycle rc =
      ((connectLoop (connO cycle) rnd rc).1 ++ [.runStart], .abandoned) := by
  show (let step := cycleStep dmin dmax (connO cycle) (runO cycle) rnd rc
    match step.2.1 with
    | CycleEnd.abandonKey => (step.1, LifeOutcome.abandoned)
    | CycleEnd.nextCycle =>
      let rest := lifecycle dmin dmax connO runO rnd fuel (cycle + 1) step.2.2
      (step.1 ++ rest.1, rest.2)) =
    ((connectLoop (connO cycle) rnd rc).1 ++ [Event.runStart],
      LifeOutcome.abandoned)
  unfold cycleStep connectLoop
  unfold connectLoop at hconn
  rw [hrun]
  rcases hc : connectLoopAux (connO cycle) rnd MAX_CONNECTION_ATTEMPTS 0 rc
    with ⟨evs, o, rc2⟩
  rw [hc] at hconn
  have h1 : o = ConnOutcome.connected := hconn
  subst h1
  show (match (handleRunError m rnd rc2).2.1 with
    | CycleEnd.abandonKey =>
      (evs ++ Event.runStart :: (handleRunError m rnd rc2).1,
        LifeOutcome.abandoned)
    | CycleEnd.nextCycle =>
      ((evs ++ Event.runStart :: (handleRunError m rnd rc2).1) ++
        (lifecycle dmin dmax connO runO rnd fuel (cycle + 1)
          (handleRunError m rnd rc2).2.2).1,
        (lifecycle dmin dmax connO runO rnd fuel (cycle + 1)
          (handleRunError m rnd rc2).2.2).2)) =
    (evs ++ [Event.runStart], LifeOutcome.abandoned)
  rw [handleRunError_terminal m rnd rc2 hsnf hterm]

/-- The connection retry loop abandons the key the moment an attempt
fails with a terminal-phrase error: with the first `k` attempts failing
non-terminally and attempt `k` failing terminally, the loop performs
exactly `k + 1` attempts, its last event is attempt `k` (so no cooldown
follows the terminal error), and it gives up. -/
theorem connectLoopAux_terminal (connO : Nat → ConnResult) (rnd : Nat → Nat)
    (errs : Nat → String) (m : String) (k : Nat) :
    ∀ remaining attempt rc,
    attempt + remaining = MAX_CONNECTION_ATTEMPTS →
    k < remaining →
    (∀ j, j < k → connO (attempt + j) = .err (errs (attempt + j)) ∧
      isTerminalError (errs (attempt + j)) = false) →
    connO (attempt + k) = .err m →
    isTerminalError m = true →
    (connectLoopAux connO rnd remaining attempt rc).2.1 = .abandoned ∧
    ((connectLoopAux connO rnd remaining attempt rc).1.countP
      isConnAttemptEv) = k + 1 ∧
    ((connectLoopAux connO rnd remaining attempt rc).1.countP
      isRunStartEv) = 0 ∧
    (connectLoopAux connO rnd remaining attempt rc).1.getLast? =
      some (.connAttempt (attempt + k)) := by
  have hm : MAX_CONNECTION_ATTEMPTS = 10 := rfl
  induction k with
  | zero =>
    intro remaining attempt rc hinv hk hnon hkerr hterm
    rcases remaining with - | n
    · omega
    rw [show attempt + 0 = attempt from rfl] at hkerr
    have hres : connectLoopAux connO rnd (n + 1) attempt rc =
        ([.connAttempt attempt], .abandoned, rc) := by
      rw [show connectLoopAux connO rnd (n + 1) attempt rc =
        (match connO attempt with
        | .ok => ([.connAttempt attempt], .connected, rc)
        | .err e =>
          if isTerminalError e then ([.connAttempt attempt], .abandoned, rc)
          else if attempt < MAX_CONNECTION_ATTEMPTS - 1 then
            let d := randint 60 250 (rnd rc)
            let rest := connectLoopAux connO rnd n (attempt + 1) (rc + 1)
            (.connAttempt attempt :: .sleepFailedAttempt d :: rest.1,
              rest.2.1, rest.2.2)
          else ([.connAttempt attempt], .abandoned, rc)) from rfl]
      rw [hkerr]
      simp [hterm]
    rw [hres]
    refine ⟨rfl, ?_, ?_, ?_⟩
    · simp [List.countP_cons, isConnAttemptEv]
    · simp [List.countP_cons, isRunStartEv]
    · simp
  | succ k ih =>
    intro remaining attempt rc hinv hk hnon hkerr hterm
    rcases remaining with - | n
    · omega
    rw [show connectLoopAux connO rnd (n + 1) attempt rc =
      (match connO attempt with
      | .ok => ([.connAttempt attempt], .connected, rc)
      | .err e =>
        if isTerminalError e then ([.connAttempt attempt], .abandoned, rc)
        else if attempt < MAX_CONNECTION_ATTEMPTS - 1 then
          let d := randint 60 250 (rnd rc)
          let rest := connectLoopAux connO rnd n (attempt + 1) (rc + 1)
          (.connAttempt attempt :: .sleepFailedAttempt d :: rest.1,
            rest.2.1, rest.2.2)
        else ([.connAttempt attempt], .abandoned, rc)) from rfl]
    obtain ⟨h0err, h0nt⟩ := hnon 0 (by omega)
    rw [show attempt + 0 = attempt from rfl] at h0err h0nt
    rw [h0err]
    simp only [h0nt, Bool.false_eq_true, if_false]
    rw [if_pos (by omega)]
    have hrec := ih n (attempt + 1) (rc + 1) (by omega) (by omega)
      (fun j hj => by
        have := hnon (j + 1) (by omega)
        rw [show attempt + (j + 1) = attempt + 1 + j by omega] at this
        exact this)
      (by rw [show attempt + 1 + k = attempt + (k + 1) by omega]; exact hkerr)
      hterm
    obtain ⟨h1, h2, h3, h4⟩ := hrec
    have hne : (connectLoopAux connO rnd n (attempt + 1) (rc + 1)).1 ≠ [] := by
      intro hemp
      rw [hemp] at h4
      simp at h4
    refine ⟨h1, ?_, ?_, ?_⟩
    · simp [List.countP_cons, isConnAttemptEv, isFailSleepEv, h2]
    · simp [List.countP_cons, isRunStartEv, h3]
    · rw [show (Event.connAttempt attempt :: .sleepFailedAttempt
          (randint 60 250 (rnd rc)) ::
          (connectLoopAux connO rnd n (attempt + 1) (rc + 1)).1) =
        [Event.connAttempt attempt, .sleepFailedAttempt
          (randint 60 250 (rnd rc))] ++
          (connectLoopAux connO rnd n (attempt + 1) (rc + 1)).1 from rfl]
      rw [List.getLast?_append_of_ne_nil _ hne]
      rw [h4]
      rw [show attempt + 1 + k = attempt + (k + 1) by omega]

/-! ## Credential merge (C4) -/

theorem mem_keepFirst (l : List String) (y : String) :
    y ∈ keepFirst l ↔ y ∈ l := by
  induction l using keepFirst.induct with
  | case1 => simp [keepFirst]
  | case2 x xs ih =>
    rw [keepFirst]
    simp only [List.mem_cons, ih, List.mem_filter, decide_eq_true_eq]
    by_cases hyx : y = x
    · simp [hyx]
    · simp [hyx]

theorem nodup_keepFirst (l : List String) : (keepFirst l).Nodup := by
  induction l using keepFirst.induct with
  | case1 => simp [keepFirst]
  | case2 x xs ih =>
    rw [keepFirst]
    rw [List.nodup_cons]
    refine ⟨?_, ih⟩
    rw [mem_keepFirst]
    simp

theorem keepFirst_sublist (l : List String) : (keepFirst l).Sublist l := by
  induction l using keepFirst.induct with
  | case1 => simp [keepFirst]
  | case2 x xs ih =>
    rw [keepFirst]
    exact List.Sublist.cons₂ x (ih.trans (List.filter_sublist xs))

theorem dedupLoop_cons (seen : List String) (k : String) (ks : List String) :
    dedupLoop seen (k :: ks) =
      if seen.contains k then dedupLoop seen ks
      else k :: dedupLoop (k :: seen) ks := rfl

theorem dedupLoop_eq_keepFirst (l : List String) :
    ∀ seen, dedupLoop seen l =
      keepFirst (l.filter (fun y => !seen.contains y)) := by
  induction l with
  | nil =>
    intro seen
    rw [show dedupLoop seen [] = [] from rfl]
    rw [List.filter_nil, keepFirst]
  | cons k ks ih =>
    intro seen
    rw [dedupLoop_cons, List.filter_cons]
    cases hs : seen.contains k with
    | true =>
      rw [if_pos rfl]
      rw [show (!true) = false from rfl]
      rw [if_neg Bool.false_ne_true]
      exact ih seen
    | false =>
      rw [if_neg Bool.false_ne_true]
      rw [show (!false) = true from rfl]
      rw [if_pos rfl]
      rw [keepFirst]
      rw [ih (k :: seen)]
      congr 1
      rw [List.filter_filter]
      congr 1
      refine List.filter_congr ?_
      intro y hy
      by_cases hyk : y = k
      · subst hyk
        simp [List.contains_cons]
      · simp [List.contains_cons, Bool.not_or, hyk, hs]

/-- C4 (amended): the merged credential list is exactly the
concatenation of the environment-sourced values (in enumeration order,
each non-blank and hence non-empty) and the flag-sourced values (in the
order given) with every duplicate removed keeping its first occurrence:
it has no duplicates, contains exactly the values of the two sources,
and preserves their relative order. -/
theorem c4_credential_merge (environ : List (String × String))
    (flagKeys : List String) :
    collectKeys environ flagKeys =
      keepFirst (env_keys ENV_PREFIX environ ++ flagKeys) ∧
    (collectKeys environ flagKeys).Nodup ∧
    (∀ x, x ∈ collectKeys environ flagKeys ↔
      x ∈ env_keys ENV_PREFIX environ ++ flagKeys) ∧
    (collectKeys environ flagKeys).Sublist
      (env_keys ENV_PREFIX environ ++ flagKeys) ∧
    (∀ v, v ∈ env_keys ENV_PREFIX environ → v ≠ "") := by
  have heq : collectKeys environ flagKeys =
      keepFirst (env_keys ENV_PREFIX environ ++ flagKeys) := by
    unfold collectKeys
    rw [dedupLoop_eq_keepFirst _ []]
    congr 1
    refine List.filter_eq_self.mpr ?_
    intro a _
    rfl
  refine ⟨heq, ?_, ?_, ?_, ?_⟩
  · rw [heq]; exact nodup_keepFirst _
  · intro x; rw [heq]; exact mem_keepFirst _ x
  · rw [heq]; exact keepFirst_sublist _
  · intro v hv
    unfold env_keys at hv
    rw [List.mem_map] at hv
    obtain ⟨kv, hkv, hval⟩ := hv
    rw [List.mem_filter] at hkv
    obtain ⟨hmem, hcond⟩ := hkv
    rw [Bool.and_eq_true] at hcond
    have hblank : kv.2.data.any (fun c => !c.isWhitespace) = true := hcond.2
    intro hcontra
    rw [← hval] at hcontra
    rw [hcontra] at hblank
    exact absurd hblank (by decide)

/-- C4, as frozen, is false on the code: the merge does not guarantee
non-empty strings, because only environment values pass a
`strip()`-non-blank filter (line 57) while explicit `--key` values are
taken as given (line 158) — with no environment keys and the single flag
value `""`, the merged list is `[""]`, which contains an empty string. -/
theorem c4_counterexample :
    collectKeys [] [""] = [""] ∧ ("" : String).isEmpty = true := by
  decide

/-! ## Launch coordinator (C5) -/

/-- C5: for a non-empty list of `N` keys the coordinator's event
sequence creates exactly `N` tasks, one per key in list order, performs
exactly `N - 1` grace-period sleeps, each drawn from [30, 45], and its
last event is a task creation — so no sleep follows the last launch. -/
theorem c5_staggered_launch (keys : List String) (rnd : Nat → Nat)
    (rc : Nat) (h : keys ≠ []) :
    ((launchSeq rnd rc keys).countP isStartTaskEv) = keys.length ∧
    ((launchSeq rnd rc keys).countP isGraceSleepEv) = keys.length - 1 ∧
    ((launchSeq rnd rc keys).filterMap
      (fun e => match e with
        | .startTask k => some k
        | .graceSleep _ => none)) = keys ∧
    (∀ d, LaunchEvent.graceSleep d ∈ launchSeq rnd rc keys →
      30 ≤ d ∧ d ≤ 45) ∧
    (∃ k, (launchSeq rnd rc keys).getLast? = some (.startTask k)) := by
  induction keys generalizing rc with
  | nil => exact absurd rfl h
  | cons k ks ih =>
    cases ks with
    | nil =>
      refine ⟨?_, ?_, ?_, ?_, ⟨k, rfl⟩⟩
      · simp [launchSeq, List.countP_cons, isStartTaskEv]
      · simp [launchSeq, List.countP_cons, isGraceSleepEv]
      · simp [launchSeq]
      · intro d hd
        simp [launchSeq] at hd
    | cons k2 ks2 =>
      obtain ⟨ih1, ih2, ih3, ih4, klast, ih5⟩ :=
        ih (rc + 1) (List.cons_ne_nil k2 ks2)
      have hstep : launchSeq rnd rc (k :: k2 :: ks2) =
          .startTask k :: .graceSleep (randint 30 45 (rnd rc)) ::
            launchSeq rnd (rc + 1) (k2 :: ks2) := rfl
      have hne : launchSeq rnd (rc + 1) (k2 :: ks2) ≠ [] := by
        intro hemp
        rw [hemp] at ih5
        simp at ih5
      refine ⟨?_, ?_, ?_, ?_, ?_⟩
      · rw [hstep]
        simp only [List.countP_cons, isStartTaskEv, isGraceSleepEv, ih1]
        simp [List.length_cons]
      · rw [hstep]
        simp only [List.countP_cons, isStartTaskEv, isGraceSleepEv, ih2]
        simp [List.length_cons]
      · rw [hstep]
        simp only [List.filterMap_cons]
        rw [ih3]
      · intro d hd
        rw [hstep] at hd
        simp only [List.mem_cons] at hd
        rcases hd with hd | hd | hd
        · exact absurd hd (by simp)
        · have hdd : d = randint 30 45 (rnd rc) := by
            injection hd
          rw [hdd]
          exact randint_mem 30 45 (rnd rc) (by omega)
        · exact ih4 d hd
      · refine ⟨klast, ?_⟩
        rw [hstep]
        rw [show (LaunchEvent.startTask k ::
            .graceSleep (randint 30 45 (rnd rc)) ::
            launchSeq rnd (rc + 1) (k2 :: ks2)) =
          [LaunchEvent.startTask k,
            .graceSleep (randint 30 45 (rnd rc))] ++
            launchSeq rnd (rc + 1) (k2 :: ks2) from rfl]
        rw [List.getLast?_append_of_ne_nil _ hne]
        exact ih5

/-- C5 at a concrete input: two keys, one grace sleep of 30 seconds
between the two task creations and none after the second. -/
theorem c5_staggered_launch_witness :
    ((launchSeq (fun _ => 0) 0 ["k1", "k2"]).countP isStartTaskEv) =
      (["k1", "k2"] : List String).length ∧
    ((launchSeq (fun _ => 0) 0 ["k1", "k2"]).countP isGraceSleepEv) =
      (["k1", "k2"] : List String).length - 1 ∧
    ((launchSeq (fun _ => 0) 0 ["k1", "k2"]).filterMap
      (fun e => match e with
        | .startTask k => some k
        | .graceSleep _ => none)) = ["k1", "k2"] ∧
    (∀ d, LaunchEvent.graceSleep d ∈ launchSeq (fun _ => 0) 0 ["k1", "k2"] →
      30 ≤ d ∧ d ≤ 45) ∧
    (∃ k, (launchSeq (fun _ => 0) 0 ["k1", "k2"]).getLast? =
      some (.startTask k)) :=
  c5_staggered_launch ["k1", "k2"] (fun _ => 0) 0 (by decide)

/-! ## Configuration validation and the empty-credential exit (C6, C7) -/

/-- The exit status `main_async` ends with, when it ends in `sys.exit`. -/
def exitStatus : MainResult → Option Nat
  | .exited c _ => some c
  | .launched _ => none

/-- The supervisor tasks `main_async` launched, when it launched any. -/
def launchedTasks : MainResult → Option (List LaunchEvent)
  | .exited _ _ => none
  | .launched t => some t

theorem main_async_valid (dmin dmax : Int)
    (environ : List (String × String)) (flagKeys : List String)
    (rnd : Nat → Nat) (hle : ¬dmin > dmax) :
    main_async dmin dmax environ flagKeys rnd =
      if (collectKeys environ flagKeys).isEmpty then
        .exited 1 ("No API keys found – set " ++ ENV_PREFIX ++
          "* or pass --key")
      else .launched (launchSeq rnd 0 (collectKeys environ flagKeys)) := by
  unfold main_async
  rw [if_neg hle]

/-- C6: when the configured minimum cooldown exceeds the maximum,
`main_async` exits (status 1) with the configuration error message,
whatever the environment and flags hold — so before any credential is
collected and before any supervisor task is launched; when minimum ≤
maximum the check passes: the result is never that error exit. -/
theorem c6_config_validation (dmin dmax : Int) (rnd : Nat → Nat) :
    (dmin > dmax →
      ∀ (environ : List (String × String)) (flagKeys : List String),
      main_async dmin dmax environ flagKeys rnd =
        .exited 1
          "Error: --downtime-min cannot be greater than --downtime-max") ∧
    (dmin ≤ dmax →
      ∀ (environ : List (String × String)) (flagKeys : List String),
      main_async dmin dmax environ flagKeys rnd ≠
        .exited 1
          "Error: --downtime-min cannot be greater than --downtime-max") := by
  constructor
  · intro hgt environ flagKeys
    unfold main_async
    rw [if_pos hgt]
  · intro hle environ flagKeys
    rw [main_async_valid dmin dmax environ flagKeys rnd (by omega)]
    by_cases hk : (collectKeys environ flagKeys).isEmpty
    · rw [if_pos hk]
      intro hco
      injection hco with h1 h2
      exact absurd h2 (by decide)
    · rw [if_neg hk]
      intro hco
      exact MainResult.noConfusion hco

/-- C7: with an empty merged credential list, `main_async` exits with a
non-zero status (1) and one of its two descriptive messages, launching
no supervisor task; under a valid configuration the message is the
no-API-keys one. -/
theorem c7_no_keys (dmin dmax : Int) (environ : List (String × String))
    (flagKeys : List String) (rnd : Nat → Nat)
    (hempty : collectKeys environ flagKeys = []) :
    (main_async dmin dmax environ flagKeys rnd =
        .exited 1
          "Error: --downtime-min cannot be greater than --downtime-max" ∨
      main_async dmin dmax environ flagKeys rnd =
        .exited 1 ("No API keys found – set " ++ ENV_PREFIX ++
          "* or pass --key")) ∧
    launchedTasks (main_async dmin dmax environ flagKeys rnd) = none ∧
    exitStatus (main_async dmin dmax environ flagKeys rnd) = some 1 ∧
    (dmin ≤ dmax →
      main_async dmin dmax environ flagKeys rnd =
        .exited 1 ("No API keys found – set " ++ ENV_PREFIX ++
          "* or pass --key")) := by
  by_cases hgt : dmin > dmax
  · have hres : main_async dmin dmax environ flagKeys rnd =
        .exited 1
          "Error: --downtime-min cannot be greater than --downtime-max" := by
      unfold main_async
      rw [if_pos hgt]
    rw [hres]
    exact ⟨Or.inl rfl, rfl, rfl, fun hle => absurd hle (by omega)⟩
  · have hres : main_async dmin dmax environ flagKeys rnd =
        .exited 1 ("No API keys found – set " ++ ENV_PREFIX ++
          "* or pass --key") := by
      rw [main_async_valid dmin dmax environ flagKeys rnd hgt]
      rw [hempty]
      rfl
    rw [hres]
    exact ⟨Or.inr rfl, rfl, rfl, fun _ => rfl⟩

/-- C7 at a concrete input: empty environment and no flags. -/
theorem c7_no_keys_witness :
    (main_async 30 45 [] [] (fun _ => 0) =
        .exited 1
          "Error: --downtime-min cannot be greater than --downtime-max" ∨
      main_async 30 45 [] [] (fun _ => 0) =
        .exited 1 ("No API keys found – set " ++ ENV_PREFIX ++
          "* or pass --key")) ∧
    launchedTasks (main_async 30 45 [] [] (fun _ => 0)) = none ∧
    exitStatus (main_async 30 45 [] [] (fun _ => 0)) = some 1 ∧
    ((30 : Int) ≤ 45 →
      main_async 30 45 [] [] (fun _ => 0) =
        .exited 1 ("No API keys found – set " ++ ENV_PREFIX ++
          "* or pass --key")) :=
  c7_no_keys 30 45 [] [] (fun _ => 0) (by decide)

/-! ## Cooldown ranges (C3) -/

/-- The range discipline of every sleep the supervisor can perform:
failed-attempt cooldowns lie in [60, 250] (line 92), expired cooldowns
in [360, 900] (line 127), unexpected-error cooldowns in [300, 600]
(line 137), and normal cooldowns in the configured
[downtime-min, downtime-max] (line 143).  Non-sleep events carry no
constraint. -/
def eventInRange (dmin dmax : Int) : Event → Prop
  | .sleepFailedAttempt d => 60 ≤ d ∧ d ≤ 250
  | .sleepExpired d => 360 ≤ d ∧ d ≤ 900
  | .sleepError d => 300 ≤ d ∧ d ≤ 600
  | .sleepNormal d => dmin ≤ d ∧ d ≤ dmax
  | _ => True

theorem connectLoopAux_inRange (dmin dmax : Int)
    (connO : Nat → ConnResult) (rnd : Nat → Nat) :
    ∀ remaining attempt rc e,
    e ∈ (connectLoopAux connO rnd remaining attempt rc).1 →
    eventInRange dmin dmax e := by
  intro remaining
  induction remaining with
  | zero =>
    intro attempt rc e he
    simp [connectLoopAux] at he
  | succ n ih =>
    intro attempt rc e he
    rw [show connectLoopAux connO rnd (n + 1) attempt rc =
      (match connO attempt with
      | .ok => ([.connAttempt attempt], .connected, rc)
      | .err m =>
        if isTerminalError m then ([.connAttempt attempt], .abandoned, rc)
        else if attempt < MAX_CONNECTION_ATTEMPTS - 1 then
          let d := randint 60 250 (rnd rc)
          let rest := connectLoopAux connO rnd n (attempt + 1) (rc + 1)
          (.connAttempt attempt :: .sleepFailedAttempt d :: rest.1,
            rest.2.1, rest.2.2)
        else ([.connAttempt attempt], .abandoned, rc)) from rfl] at he
    cases hco : connO attempt with
    | ok =>
      rw [hco] at he
      simp at he
      subst he
      trivial
    | err m =>
      rw [hco] at he
      by_cases ht : isTerminalError m
      · simp only [ht, if_true] at he
        simp at he
        subst he
        trivial
      · simp only [ht, Bool.false_eq_true, if_false] at he
        by_cases hlt : attempt < MAX_CONNECTION_ATTEMPTS - 1
        · rw [if_pos hlt] at he
          simp only [List.mem_cons] at he
          rcases he with he | he | he
          · subst he; trivial
          · subst he
            exact randint_mem 60 250 (rnd rc) (by omega)
          · exact ih (attempt + 1) (rc + 1) e he
        · rw [if_neg hlt] at he
          simp at he
          subst he
          trivial

theorem cycleStep_inRange (dmin dmax : Int) (connO : Nat → ConnResult)
    (runO : RunResult) (rnd : Nat → Nat) (rc : Nat)
    (hdd : dmin ≤ dmax) :
    ∀ e, e ∈ (cycleStep dmin dmax connO runO rnd rc).1 →
    eventInRange dmin dmax e := by
  intro e he
  unfold cycleStep at he
  rcases hc : connectLoopAux connO rnd MAX_CONNECTION_ATTEMPTS 0 rc
    with ⟨evs, o, rc2⟩
  unfold connectLoop at he
  rw [hc] at he
  have hevs : ∀ x, x ∈ evs → eventInRange dmin dmax x := by
    intro x hx
    refine connectLoopAux_inRange dmin dmax connO rnd
      MAX_CONNECTION_ATTEMPTS 0 rc x ?_
    rw [hc]
    exact hx
  cases o with
  | abandoned => exact hevs e he
  | connected =>
    cases runO with
    | clean code =>
      simp only [List.mem_append, List.mem_cons] at he
      rcases he with he | he | he
      · exact hevs e he
      · subst he; trivial
      · simp at he
        subst he
        exact randint_mem dmin dmax (rnd rc2) hdd
    | raised m =>
      simp only [List.mem_append, List.mem_cons] at he
      rcases he with he | he | he
      · exact hevs e he
      · subst he; trivial
      · unfold handleRunError at he
        cases hcl : classifyRunError m with
        | expired =>
          rw [hcl] at he
          simp at he
          subst he
          exact randint_mem 360 900 (rnd rc2) (by omega)
        | terminal =>
          rw [hcl] at he
          simp at he
        | unexpected =>
          rw [hcl] at he
          simp at he
          subst he
          exact randint_mem 300 600 (rnd rc2) (by omega)

/-- C3: every cooldown the supervisor sleeps, over any number of cycles
and whatever the oracles do, lies in its specified inclusive range —
normal cooldowns in the configured [downtime-min, downtime-max] (given
downtime-min ≤ downtime-max), expired cooldowns in [360, 900],
unexpected-error cooldowns in [300, 600], and failed-attempt cooldowns
in [60, 250]. -/
theorem c3_cooldown_ranges (dmin dmax : Int) (connO : Nat → Nat → ConnResult)
    (runO : Nat → RunResult) (rnd : Nat → Nat) (fuel cycle rc : Nat)
    (hdd : dmin ≤ dmax) :
    ∀ e, e ∈ (lifecycle dmin dmax connO runO rnd fuel cycle rc).1 →
    eventInRange dmin dmax e := by
  induction fuel generalizing cycle rc with
  | zero =>
    intro e he
    simp [lifecycle] at he
  | succ n ih =>
    intro e he
    have hstep : lifecycle dmin dmax connO runO rnd (n + 1) cycle rc =
      (let step := cycleStep dmin dmax (connO cycle) (runO cycle) rnd rc
      match step.2.1 with
      | CycleEnd.abandonKey => (step.1, LifeOutcome.abandoned)
      | CycleEnd.nextCycle =>
        let rest := lifecycle dmin dmax connO runO rnd n (cycle + 1) step.2.2
        (step.1 ++ rest.1, rest.2)) := rfl
    rw [hstep] at he
    rcases hc : cycleStep dmin dmax (connO cycle) (runO cycle) rnd rc
      with ⟨evs, cend, rc2⟩
    rw [hc] at he
    have hevs : ∀ x, x ∈ evs → eventInRange dmin dmax x := by
      intro x hx
      refine cycleStep_inRange dmin dmax (connO cycle) (runO cycle) rnd rc
        hdd x ?_
      rw [hc]
      exact hx
    cases cend with
    | abandonKey => exact hevs e he
    | nextCycle =>
      simp only [List.mem_append] at he
      rcases he with he | he
      · exact hevs e he
      · exact ih (cycle + 1) rc2 e he

/-- C3 at a concrete input: one clean cycle with configured range
[30, 45]; the normal cooldown slept (duration 30) is in range. -/
theorem c3_cooldown_ranges_witness :
    eventInRange 30 45 (.sleepNormal 30) :=
  c3_cooldown_ranges 30 45 (fun _ _ => .ok) (fun _ => .clean 0)
    (fun _ => 0) 1 0 0 (by decide) (.sleepNormal 30) (by decide)

/-- C2 (amended): a connection-attempt error containing a terminal phrase
abandons the key immediately — the failing attempt is the trace's last
event (no cooldown sleep follows it), exactly `k + 1` attempts were made
however much budget remained, and the run phase is never entered; a
run-phase error containing a terminal phrase abandons immediately in the
same way provided its text does not also contain the sandbox-expiry
phrase, which is checked first. -/
theorem c2_terminal_short_circuit (dmin dmax : Int)
    (connO : Nat → Nat → ConnResult) (runO : Nat → RunResult)
    (rnd : Nat → Nat) (fuel cycle rc : Nat) (m : String)
    (hterm : isTerminalError m = true) :
    (∀ (k : Nat) (errs : Nat → String), k < MAX_CONNECTION_ATTEMPTS →
      (∀ j, j < k → connO cycle j = .err (errs j) ∧
        isTerminalError (errs j) = false) →
      connO cycle k = .err m →
      (lifecycle dmin dmax connO runO rnd (fuel + 1) cycle rc).2 =
        .abandoned ∧
      ((lifecycle dmin dmax connO runO rnd (fuel + 1) cycle rc).1.countP
        isConnAttemptEv) = k + 1 ∧
      ((lifecycle dmin dmax connO runO rnd (fuel + 1) cycle rc).1.countP
        isRunStartEv) = 0 ∧
      (lifecycle dmin dmax connO runO rnd (fuel + 1) cycle rc).1.getLast? =
        some (.connAttempt k)) ∧
    ((connectLoop (connO cycle) rnd rc).2.1 = .connected →
      runO cycle = .raised m →
      isSandboxNotFound m = false →
      lifecycle dmin dmax connO runO rnd (fuel + 1) cycle rc =
        ((connectLoop (connO cycle) rnd rc).1 ++ [.runStart],
          .abandoned)) := by
  constructor
  · intro k errs hk hnon hkerr
    have hlem := connectLoopAux_terminal (connO cycle) rnd errs m k
      MAX_CONNECTION_ATTEMPTS 0 rc rfl hk
      (fun j hj => by rw [Nat.zero_add]; exact hnon j hj)
      (by rw [Nat.zero_add]; exact hkerr) hterm
    have habandon : (connectLoop (connO cycle) rnd rc).2.1 = .abandoned :=
      hlem.1
    rw [lifecycle_conn_abandoned dmin dmax connO runO rnd fuel cycle rc
      habandon]
    unfold connectLoop
    refine ⟨rfl, hlem.2.1, hlem.2.2.1, ?_⟩
    rw [hlem.2.2.2]
    rw [Nat.zero_add]
  · intro hconn hrun hsnf
    exact lifecycle_run_terminal dmin dmax connO runO rnd fuel cycle rc m
      hconn hrun hsnf hterm

/-- C2, as frozen, is false on the code: the run-phase error text
"suspended: the sandbox was not found" contains the terminal phrase
"suspended", yet — because the sandbox-expiry check of line 125 runs
before the terminal check of line 132 — the supervisor does not abandon:
with fuel for two cycles it sleeps an expired cooldown twice, performs a
second connection attempt, and is still running. -/
theorem c2_counterexample :
    isTerminalError "suspended: the sandbox was not found" = true ∧
    (lifecycle 30 45 (fun _ _ => .ok)
      (fun _ => .raised "suspended: the sandbox was not found")
      (fun _ => 0) 2 0 0).2 = .running ∧
    ((lifecycle 30 45 (fun _ _ => .ok)
      (fun _ => .raised "suspended: the sandbox was not found")
      (fun _ => 0) 2 0 0).1.countP isConnAttemptEv) = 2 ∧
    ((lifecycle 30 45 (fun _ _ => .ok)
      (fun _ => .raised "suspended: the sandbox was not found")
      (fun _ => 0) 2 0 0).1.countP isExpSleepEv) = 2 := by
  decide

/-- C2 at a concrete input: the very first connection attempt fails with
"account suspended" and the supervisor abandons with that attempt as the
trace's only event. -/
theorem c2_terminal_short_circuit_witness :
    (lifecycle 30 45 (fun _ _ => .err "account suspended")
      (fun _ => .clean 0) (fun _ => 0) 1 0 0).2 = .abandoned ∧
    ((lifecycle 30 45 (fun _ _ => .err "account suspended")
      (fun _ => .clean 0) (fun _ => 0) 1 0 0).1.countP isConnAttemptEv)
      = 0 + 1 ∧
    ((lifecycle 30 45 (fun _ _ => .err "account suspended")
      (fun _ => .clean 0) (fun _ => 0) 1 0 0).1.countP isRunStartEv) = 0 ∧
    (lifecycle 30 45 (fun _ _ => .err "account suspended")
      (fun _ => .clean 0) (fun _ => 0) 1 0 0).1.getLast? =
      some (.connAttempt 0) :=
  (c2_terminal_short_circuit 30 45 (fun _ _ => .err "account suspended")
    (fun _ => .clean 0) (fun _ => 0) 0 0 0 "account suspended"
    (by decide)).1 0 (fun _ => "")
    (by decide)
    (fun j hj => (Nat.not_lt_zero j hj).elim)
    rfl

/-! ## Session expiry during the run (C8) and clean runs (C9) -/

theorem connectLoopAux_ok (connO : Nat → ConnResult) (rnd : Nat → Nat)
    (r attempt rc : Nat) (h : connO attempt = .ok) :
    connectLoopAux connO rnd (r + 1) attempt rc =
      ([.connAttempt attempt], .connected, rc) := by
  rw [show connectLoopAux connO rnd (r + 1) attempt rc =
    (match connO attempt with
    | .ok => ([.connAttempt attempt], .connected, rc)
    | .err m =>
      if isTerminalError m then ([.connAttempt attempt], .abandoned, rc)
      else if attempt < MAX_CONNECTION_ATTEMPTS - 1 then
        let d := randint 60 250 (rnd rc)
        let rest := connectLoopAux connO rnd r (attempt + 1) (rc + 1)
        (.connAttempt attempt :: .sleepFailedAttempt d :: rest.1,
          rest.2.1, rest.2.2)
      else ([.connAttempt attempt], .abandoned, rc)) from rfl]
  rw [h]

theorem connectLoopAux_head (connO : Nat → ConnResult) (rnd : Nat → Nat)
    (r attempt rc : Nat) :
    (connectLoopAux connO rnd (r + 1) attempt rc).1.head? =
      some (.connAttempt attempt) := by
  rw [show connectLoopAux connO rnd (r + 1) attempt rc =
    (match connO attempt with
    | .ok => ([.connAttempt attempt], .connected, rc)
    | .err m =>
      if isTerminalError m then ([.connAttempt attempt], .abandoned, rc)
      else if attempt < MAX_CONNECTION_ATTEMPTS - 1 then
        let d := randint 60 250 (rnd rc)
        let rest := connectLoopAux connO rnd r (attempt + 1) (rc + 1)
        (.connAttempt attempt :: .sleepFailedAttempt d :: rest.1,
          rest.2.1, rest.2.2)
      else ([.connAttempt attempt], .abandoned, rc)) from rfl]
  cases hco : connO attempt with
  | ok => rfl
  | err m =>
    by_cases ht : isTerminalError m
    · simp [ht]
    · by_cases hlt : attempt < MAX_CONNECTION_ATTEMPTS - 1
      · simp [ht, hlt]
      · simp [ht, hlt]

theorem cycleStep_head (dmin dmax : Int) (connO : Nat → ConnResult)
    (runO : RunResult) (rnd : Nat → Nat) (rc : Nat) :
    (cycleStep dmin dmax connO runO rnd rc).1.head? =
      some (.connAttempt 0) := by
  have hhead := connectLoopAux_head connO rnd 9 0 rc
  unfold cycleStep connectLoop
  rw [show MAX_CONNECTION_ATTEMPTS = 9 + 1 from rfl]
  rcases hc : connectLoopAux connO rnd (9 + 1) 0 rc with ⟨evs, o, rc2⟩
  rw [hc] at hhead
  cases evs with
  | nil => simp at hhead
  | cons e evs2 =>
    have he : e = .connAttempt 0 := by
      have : some e = some (Event.connAttempt 0) := hhead
      injection this
    subst he
    cases o with
    | abandoned => rfl
    | connected => cases runO with
      | clean code => rfl
      | raised m => rfl

theorem lifecycle_head (dmin dmax : Int) (connO : Nat → Nat → ConnResult)
    (runO : Nat → RunResult) (rnd : Nat → Nat) (fuel cycle rc : Nat) :
    (lifecycle dmin dmax connO runO rnd (fuel + 1) cycle rc).1.head? =
      some (.connAttempt 0) := by
  have hstep := cycleStep_head dmin dmax (connO cycle) (runO cycle) rnd rc
  show ((let step := cycleStep dmin dmax (connO cycle) (runO cycle) rnd rc
    match step.2.1 with
    | CycleEnd.abandonKey => (step.1, LifeOutcome.abandoned)
    | CycleEnd.nextCycle =>
      let rest := lifecycle dmin dmax connO runO rnd fuel (cycle + 1) step.2.2
      (step.1 ++ rest.1, rest.2)).1.head?) =
    some (Event.connAttempt 0)
  rcases hc : cycleStep dmin dmax (connO cycle) (runO cycle) rnd rc
    with ⟨evs, cend, rc2⟩
  rw [hc] at hstep
  cases evs with
  | nil => simp at hstep
  | cons e evs2 =>
    have he : e = .connAttempt 0 := by
      have : some e = some (Event.connAttempt 0) := hstep
      injection this
    subst he
    cases cend with
    | abandonKey => rfl
    | nextCycle => rfl

theorem handleRunError_expired (m : String) (rnd : Nat → Nat) (rc : Nat)
    (hsnf : isSandboxNotFound m = true) :
    handleRunError m rnd rc =
      ([.sleepExpired (randint 360 900 (rnd rc))], .nextCycle, rc + 1) := by
  have hclass : classifyRunError m = .expired := by
    unfold classifyRunError
    rw [hsnf]
    rfl
  unfold handleRunError
  rw [hclass]

/-- Lines 125-130: a run error whose text holds the sandbox-expiry
phrase makes the cycle sleep the expired cooldown and `continue`: the
trace and outcome are exactly those of the remaining iterations,
prefixed by this cycle's connection events, the run start, and the
expired sleep. -/
theorem lifecycle_run_expired (dmin dmax : Int)
    (connO : Nat → Nat → ConnResult) (runO : Nat → RunResult)
    (rnd : Nat → Nat) (fuel cycle rc : Nat) (m : String)
    (hconn : (connectLoop (connO cycle) rnd rc).2.1 = .connected)
    (hrun : runO cycle = .raised m)
    (hsnf : isSandboxNotFound m = true) :
    lifecycle dmin dmax connO runO rnd (fuel + 1) cycle rc =
      ((connectLoop (connO cycle) rnd rc).1 ++ .runStart ::
        .sleepExpired
          (randint 360 900 (rnd (connectLoop (connO cycle) rnd rc).2.2)) ::
        (lifecycle dmin dmax connO runO rnd fuel (cycle + 1)
          ((connectLoop (connO cycle) rnd rc).2.2 + 1)).1,
        (lifecycle dmin dmax connO runO rnd fuel (cycle + 1)
          ((connectLoop (connO cycle) rnd rc).2.2 + 1)).2) := by
  show (let step := cycleStep dmin dmax (connO cycle) (runO cycle) rnd rc
    match step.2.1 with
    | CycleEnd.abandonKey => (step.1, LifeOutcome.abandoned)
    | CycleEnd.nextCycle =>
      let rest := lifecycle dmin dmax connO runO rnd fuel (cycle + 1) step.2.2
      (step.1 ++ rest.1, rest.2)) = _
  unfold cycleStep connectLoop
  unfold connectLoop at hconn
  rw [hrun]
  rcases hc : connectLoopAux (connO cycle) rnd MAX_CONNECTION_ATTEMPTS 0 rc
    with ⟨evs, o, rc2⟩
  rw [hc] at hconn
  have h1 : o = ConnOutcome.connected := hconn
  subst h1
  show (match (handleRunError m rnd rc2).2.1 with
    | CycleEnd.abandonKey =>
      (evs ++ Event.runStart :: (handleRunError m rnd rc2).1,
        LifeOutcome.abandoned)
    | CycleEnd.nextCycle =>
      ((evs ++ Event.runStart :: (handleRunError m rnd rc2).1) ++
        (lifecycle dmin dmax connO runO rnd fuel (cycle + 1)
          (handleRunError m rnd rc2).2.2).1,
        (lifecycle dmin dmax connO runO rnd fuel (cycle + 1)
          (handleRunError m rnd rc2).2.2).2)) =
    (evs ++ Event.runStart ::
      .sleepExpired (randint 360 900 (rnd rc2)) ::
      (lifecycle dmin dmax connO runO rnd fuel (cycle + 1) (rc2 + 1)).1,
      (lifecycle dmin dmax connO runO rnd fuel (cycle + 1) (rc2 + 1)).2)
  rw [handleRunError_expired m rnd rc2 hsnf]
  simp [List.append_assoc]

/-- C8: a run-phase error whose text holds the sandbox-expiry phrase
does not abandon the key — with fuel for just this cycle the supervisor
is still running; the expired cooldown slept lies in [360, 900]; and
with more fuel the trace continues into a fresh cycle whose first event
is a new connection attempt. -/
theorem c8_session_expired (dmin dmax : Int)
    (connO : Nat → Nat → ConnResult) (runO : Nat → RunResult)
    (rnd : Nat → Nat) (fuel cycle rc : Nat) (m : String)
    (hconn : (connectLoop (connO cycle) rnd rc).2.1 = .connected)
    (hrun : runO cycle = .raised m)
    (hsnf : isSandboxNotFound m = true) :
    (360 ≤ randint 360 900 (rnd (connectLoop (connO cycle) rnd rc).2.2) ∧
      randint 360 900 (rnd (connectLoop (connO cycle) rnd rc).2.2) ≤ 900) ∧
    (lifecycle dmin dmax connO runO rnd 1 cycle rc).2 = .running ∧
    lifecycle dmin dmax connO runO rnd (fuel + 1 + 1) cycle rc =
      ((connectLoop (connO cycle) rnd rc).1 ++ .runStart ::
        .sleepExpired
          (randint 360 900 (rnd (connectLoop (connO cycle) rnd rc).2.2)) ::
        (lifecycle dmin dmax connO runO rnd (fuel + 1) (cycle + 1)
          ((connectLoop (connO cycle) rnd rc).2.2 + 1)).1,
        (lifecycle dmin dmax connO runO rnd (fuel + 1) (cycle + 1)
          ((connectLoop (connO cycle) rnd rc).2.2 + 1)).2) ∧
    (lifecycle dmin dmax connO runO rnd (fuel + 1) (cycle + 1)
      ((connectLoop (connO cycle) rnd rc).2.2 + 1)).1.head? =
      some (.connAttempt 0) := by
  refine ⟨randint_mem 360 900 _ (by omega), ?_, ?_, ?_⟩
  · have h2 := lifecycle_run_expired dmin dmax connO runO rnd 0 cycle rc m
      hconn hrun hsnf
    rw [show (0 + 1) = 1 from rfl] at h2
    rw [h2]
    rfl
  · exact lifecycle_run_expired dmin dmax connO runO rnd (fuel + 1) cycle rc
      m hconn hrun hsnf
  · exact lifecycle_head dmin dmax connO runO rnd fuel (cycle + 1) _

/-- C8 at a concrete input: connection succeeds at once, the run raises
"the sandbox was not found", the supervisor sleeps 360 seconds and is
still running after that cycle. -/
theorem c8_session_expired_witness :
    ((360 : Int) ≤ randint 360 900 0 ∧ randint 360 900 0 ≤ 900) ∧
    (lifecycle 30 45 (fun _ _ => .ok)
      (fun _ => .raised "the sandbox was not found")
      (fun _ => 0) 1 0 0).2 = .running :=
  ⟨(c8_session_expired 30 45 (fun _ _ => .ok)
      (fun _ => .raised "the sandbox was not found") (fun _ => 0) 0 0 0
      "the sandbox was not found" (by decide) rfl (by decide)).1,
    (c8_session_expired 30 45 (fun _ _ => .ok)
      (fun _ => .raised "the sandbox was not found") (fun _ => 0) 0 0 0
      "the sandbox was not found" (by decide) rfl (by decide)).2.1⟩

/-- The trace of a supervisor whose connections always succeed at the
first attempt and whose runs always end cleanly: each cycle is one
connection attempt, one run, one normal cooldown. -/
def cleanTrace (dmin dmax : Int) (rnd : Nat → Nat) : Nat → Nat → List Event
  | 0, _ => []
  | fuel + 1, rc =>
    .connAttempt 0 :: .runStart ::
      .sleepNormal (randint dmin dmax (rnd rc)) ::
      cleanTrace dmin dmax rnd fuel (rc + 1)

theorem cycleStep_clean (dmin dmax : Int) (connO : Nat → ConnResult)
    (rnd : Nat → Nat) (rc : Nat) (code : Int) (h0 : connO 0 = .ok) :
    cycleStep dmin dmax connO (.clean code) rnd rc =
      ([.connAttempt 0, .runStart,
        .sleepNormal (randint dmin dmax (rnd rc))], .nextCycle, rc + 1) := by
  unfold cycleStep connectLoop
  rw [show MAX_CONNECTION_ATTEMPTS = 9 + 1 from rfl]
  rw [connectLoopAux_ok connO rnd 9 0 rc h0]
  rfl

/-- C9 (amended): a supervisor whose connection attempts succeed and
whose run phase always completes without raising never reaches the
abandoned state: for every number of cycles it is still running, and its
trace is exactly connect, run, normal cooldown, repeated. -/
theorem c9_clean_runs_loop (dmin dmax : Int)
    (connO : Nat → Nat → ConnResult) (runO : Nat → RunResult)
    (rnd : Nat → Nat) (fuel cycle rc : Nat)
    (hconn : ∀ c a, connO c a = .ok)
    (hclean : ∀ c, ∃ code, runO c = .clean code) :
    lifecycle dmin dmax connO runO rnd fuel cycle rc =
      (cleanTrace dmin dmax rnd fuel rc, .running) := by
  induction fuel generalizing cycle rc with
  | zero => rfl
  | succ n ih =>
    obtain ⟨code, hcode⟩ := hclean cycle
    have hcs := cycleStep_clean dmin dmax (connO cycle) rnd rc code
      (hconn cycle 0)
    rw [← hcode] at hcs
    show (let step := cycleStep dmin dmax (connO cycle) (runO cycle) rnd rc
      match step.2.1 with
      | CycleEnd.abandonKey => (step.1, LifeOutcome.abandoned)
      | CycleEnd.nextCycle =>
        let rest := lifecycle dmin dmax connO runO rnd n (cycle + 1) step.2.2
        (step.1 ++ rest.1, rest.2)) =
      (cleanTrace dmin dmax rnd (n + 1) rc, LifeOutcome.running)
    rw [hcs]
    show ([Event.connAttempt 0, Event.runStart,
        Event.sleepNormal (randint dmin dmax (rnd rc))] ++
        (lifecycle dmin dmax connO runO rnd n (cycle + 1) (rc + 1)).1,
      (lifecycle dmin dmax connO runO rnd n (cycle + 1) (rc + 1)).2) =
      (cleanTrace dmin dmax rnd (n + 1) rc, LifeOutcome.running)
    rw [ih (cycle + 1) (rc + 1)]
    rfl

/-- C9, as frozen, is false on the code: a supervisor whose run phase
never raises (the run oracle always reports a clean exit 0) still
reaches the abandoned state when its connection attempts exhaust the
retry budget — the run-clean hypothesis alone does not keep it out of
Abandoned. -/
theorem c9_counterexample :
    (lifecycle 30 45 (fun _ _ => .err "connection refused")
      (fun _ => .clean 0) (fun _ => 0) 1 0 0).2 = .abandoned := by
  decide

/-- C9 at a concrete input: two clean cycles, trace as predicted, still
running. -/
theorem c9_clean_runs_loop_witness :
    lifecycle 30 45 (fun _ _ => .ok) (fun _ => .clean 0)
      (fun _ => 0) 2 0 0 =
      (cleanTrace 30 45 (fun _ => 0) 2 0, .running) :=
  c9_clean_runs_loop 30 45 (fun _ _ => .ok) (fun _ => .clean 0)
    (fun _ => 0) 2 0 0 (fun _ _ => rfl) (fun _ => ⟨0, rfl⟩)

/-! ## Error classification (C10) -/

/-- C10: run-phase error classification is exactly the three
case-insensitive substring tests in source order — the sandbox-expiry
phrase (checked first) marks expiry, otherwise "team blocked" or
"suspended" marks a terminal error, and everything else is unexpected;
the connection phase uses the same two terminal phrases; and the
classification depends only on the lowercased error text. -/
theorem c10_classification (m m2 : String) :
    (classifyRunError m = .expired ↔ isSandboxNotFound m = true) ∧
    (classifyRunError m = .terminal ↔
      (isSandboxNotFound m = false ∧ isTerminalError m = true)) ∧
    (classifyRunError m = .unexpected ↔
      (isSandboxNotFound m = false ∧ isTerminalError m = false)) ∧
    (isTerminalError m = true ↔
      (containsPhrase m "team blocked" = true ∨
        containsPhrase m "suspended" = true)) ∧
    (isSandboxNotFound m = true ↔
      containsPhrase m "the sandbox was not found" = true) ∧
    (lowerData m = lowerData m2 →
      classifyRunError m = classifyRunError m2 ∧
      isTerminalError m = isTerminalError m2) := by
  refine ⟨?_, ?_, ?_, ?_, Iff.rfl, ?_⟩
  · unfold classifyRunError
    cases hA : isSandboxNotFound m <;> cases hB : isTerminalError m <;>
      simp [hA, hB]
  · unfold classifyRunError
    cases hA : isSandboxNotFound m <;> cases hB : isTerminalError m <;>
      simp [hA, hB]
  · unfold classifyRunError
    cases hA : isSandboxNotFound m <;> cases hB : isTerminalError m <;>
      simp [hA, hB]
  · unfold isTerminalError
    simp
  · intro h
    have hc : ∀ pat, containsPhrase m pat = containsPhrase m2 pat := by
      intro pat
      unfold containsPhrase
      rw [h]
    constructor
    · unfold classifyRunError isSandboxNotFound isTerminalError
      simp only [hc]
    · unfold isTerminalError
      simp only [hc]

/-- C1: a supervisor whose connection attempts all fail with non-terminal
errors performs exactly 10 connection attempts, sleeps a failed-attempt
cooldown 9 times (between attempts, and in particular not after the 10th
attempt: the last event of its whole trace is the 10th attempt), never
enters the run phase, and abandons the key. -/
theorem c1_retry_budget (dmin dmax : Int) (connO : Nat → Nat → ConnResult)
    (runO : Nat → RunResult) (rnd : Nat → Nat) (fuel rc : Nat)
    (errs : Nat → String)
    (hfail : ∀ a, connO 0 a = .err (errs a))
    (hnt : ∀ a, isTerminalError (errs a) = false) :
    (lifecycle dmin dmax connO runO rnd (fuel + 1) 0 rc).2 =
      .abandoned ∧
    ((lifecycle dmin dmax connO runO rnd (fuel + 1) 0 rc).1.countP
      isConnAttemptEv) = 10 ∧
    ((lifecycle dmin dmax connO runO rnd (fuel + 1) 0 rc).1.countP
      isFailSleepEv) = 9 ∧
    ((lifecycle dmin dmax connO runO rnd (fuel + 1) 0 rc).1.countP
      isRunStartEv) = 0 ∧
    (lifecycle dmin dmax connO runO rnd (fuel + 1) 0 rc).1.getLast? =
      some (.connAttempt 9) := by
  have h := connectLoopAux_allfail (connO 0) rnd errs hfail hnt
    MAX_CONNECTION_ATTEMPTS 0 rc rfl
    (by unfold MAX_CONNECTION_ATTEMPTS; omega)
  rw [lifecycle_allfail dmin dmax connO runO rnd fuel rc errs hfail hnt]
  unfold connectLoop
  exact ⟨rfl, h.2.1, h.2.2.1, h.2.2.2.1, h.2.2.2.2⟩

/-- C1 at a concrete input: every attempt fails with the non-terminal
error text "connection reset", fuel for one cycle. -/
theorem c1_retry_budget_witness :
    (lifecycle 30 45 (fun _ _ => .err "connection reset")
      (fun _ => .clean 0) (fun _ => 0) 1 0 0).2 = .abandoned ∧
    ((lifecycle 30 45 (fun _ _ => .err "connection reset")
      (fun _ => .clean 0) (fun _ => 0) 1 0 0).1.countP isConnAttemptEv) = 10 ∧
    ((lifecycle 30 45 (fun _ _ => .err "connection reset")
      (fun _ => .clean 0) (fun _ => 0) 1 0 0).1.countP isFailSleepEv) = 9 ∧
    ((lifecycle 30 45 (fun _ _ => .err "connection reset")
      (fun _ => .clean 0) (fun _ => 0) 1 0 0).1.countP isRunStartEv) = 0 ∧
    (lifecycle 30 45 (fun _ _ => .err "connection reset")
      (fun _ => .clean 0) (fun _ => 0) 1 0 0).1.getLast? =
      some (.connAttempt 9) :=
  c1_retry_budget 30 45 (fun _ _ => .err "connection reset")
    (fun _ => .clean 0) (fun _ => 0) 0 0 (fun _ => "connection reset")
    (fun _ => rfl)
    (fun _ => show isTerminalError "connection reset" = false by decide)

end EB
